import Mathlib

/-!
Verification of the `LoadEnv` Infisical client facade (`src/main.py`).

The facade composes a bounded time-expiring cache (`cachetools.TTLCache`)
with a remote SDK capability.  The remote SDK is external, so each operation
takes an oracle argument describing what the remote call would return; the
oracle is recorded in the outcome so that theorems can speak about whether
and with which arguments the remote capability was invoked.
-/

namespace Infisical

/-- Modelled from the spec: a cache entry of the ScopedCache
(`cachetools.TTLCache`, external to the repository).  It stores the value
and its expiry instant (insertion time plus ttl). -/
structure CacheEntry where
  value : String
  expires : Nat
deriving Repr, DecidableEq

/-- Modelled from the spec: the bounded, time-expiring key-value store
(`cachetools.TTLCache(maxsize, ttl)` at `src/main.py:46`).  Entries are
kept in insertion order, oldest first. -/
structure TTLCache where
  maxsize : Nat
  ttl : Nat
  entries : List (String × CacheEntry)
deriving Repr, DecidableEq

/-- Python `s.startswith(pre)`: character-sequence prefix test. -/
def pyStartsWith (s pre : String) : Bool :=
  pre.data.isPrefixOf s.data

/-- Lookup of a live (unexpired) entry: first entry with the key, value
returned only when `now < expires`. -/
def lookupLive (now : Nat) (k : String) : List (String × CacheEntry) → Option String
  | [] => none
  | e :: es => if e.1 = k then (if now < e.2.expires then some e.2.value else none)
               else lookupLive now k es

/-- Modelled from the spec: `cache[key]` read guarded by `key in cache`;
absent when missing or expired. -/
def TTLCache.getU (c : TTLCache) (now : Nat) (k : String) : Option String :=
  lookupLive now k c.entries

/-- Modelled from the spec: expiry-aware membership (`key in cache`). -/
def TTLCache.containsKey (c : TTLCache) (now : Nat) (k : String) : Bool :=
  (c.getU now k).isSome

/-- Modelled from the spec: `cache[key] = value`.  `cachetools.TTLCache`
first drops expired entries, replaces any existing entry for the key, then
evicts oldest entries while over capacity, and finally links the new entry
at the end with expiry `now + ttl`. -/
def TTLCache.setItem (c : TTLCache) (now : Nat) (k v : String) : TTLCache :=
  let live := c.entries.filter (fun p => decide (now < p.2.expires))
  let removed := live.filter (fun p => decide (p.1 ≠ k))
  let evicted := removed.drop (removed.length - (c.maxsize - 1))
  { c with entries := evicted ++ [(k, ⟨v, now + c.ttl⟩)] }

/-- Modelled from the spec: the invalidation loop body
(`[k for k in cache.keys() if k.startswith(pre)]` then `del cache[k]`).
Iteration over a `TTLCache` yields only unexpired keys, so exactly the
live entries whose key starts with the given string are removed. -/
def TTLCache.delMatching (c : TTLCache) (now : Nat) (pre : String) : TTLCache :=
  { c with entries :=
      c.entries.filter (fun p => !(pyStartsWith p.1 pre && decide (now < p.2.expires))) }

/-- Python falsiness fallback on a plain string: `s or d`. -/
def strOr (s d : String) : String :=
  if s = "" then d else s

/-- Python falsiness fallback on an optional string: `o or d`. -/
def optOr (o : Option String) (d : String) : String :=
  match o with
  | some s => strOr s d
  | none => d

/-- Python truthiness of an optional string (`None` and `""` are falsy). -/
def truthyB : Option String → Bool
  | none => false
  | some s => s != ""

/-- `project or self.project_id` followed by `if not project_id`: the
resolved project, or `none` when neither override nor default is truthy. -/
def resolveProject (override dflt : Option String) : Option String :=
  match override with
  | some s => if s = "" then (match dflt with
              | some t => if t = "" then none else some t
              | none => none) else some s
  | none => match dflt with
            | some t => if t = "" then none else some t
            | none => none

/-- State of a `LoadEnv` instance (`src/main.py:27`): the cache and the
construction-time defaults.  `environment_slug` is `INFISICAL_ENVIRONMENT`
read at construction (`src/main.py:57`); `secret_path` is
`INFISICAL_SECRET_PATH` (default "/", `src/main.py:58`). -/
structure LoadEnv where
  cache : TTLCache
  project_id : Option String
  environment_slug : String
  secret_path : String
  default_client_id : String
  default_client_secret : String
deriving Repr, DecidableEq

/-- `LoadEnv.__init__` (`src/main.py:30-58`): fresh `TTLCache(100, 3600)`,
credentials from arguments falling back to the process environment, and
scope defaults from the process environment.  The `env*` arguments model
`os.getenv` results (`none` = variable unset). -/
def mkLoadEnv (machine_identity_client_id machine_identity_client_secret : Option String)
    (envMachineId envSecretKey : Option String)
    (envProjectId envEnvironment envSecretPath : Option String) : LoadEnv :=
  { cache := ⟨100, 3600, []⟩
    project_id := envProjectId
    environment_slug := envEnvironment.getD "dev"
    secret_path := envSecretPath.getD "/"
    default_client_id := optOr machine_identity_client_id (envMachineId.getD "")
    default_client_secret := optOr machine_identity_client_secret (envSecretKey.getD "") }

/-- `LoadEnv._key` (`src/main.py:72-74`): `f"{project_id}:{environment}:{path}"`. -/
def _key (project_id environment path : String) : String :=
  project_id ++ ":" ++ environment ++ ":" ++ path

/-- The cache key computed by `get` (`src/main.py:107`):
`f"{self._key(project_id, env, path)}:{key}"`. -/
def getCacheKey (project_id env path key : String) : String :=
  _key project_id env path ++ ":" ++ key

/-- The declared default of the `env` parameter of every operation
(`env: Environment = "dev"` in each signature). -/
def defaultEnvArg : String := "dev"

/-- Errors surfaced by the facade: the `ValueError` raised when no project
id is resolvable, and a propagated remote-capability failure. -/
inductive LEErr where
  | missingProject : LEErr
  | remote (cause : String) : LEErr
deriving Repr, DecidableEq

instance {ε α : Type} [DecidableEq ε] [DecidableEq α] : DecidableEq (Except ε α) := fun x y =>
  match x, y with
  | .ok a, .ok b =>
    if h : a = b then .isTrue (by rw [h]) else .isFalse (by intro hh; cases hh; exact h rfl)
  | .ok _, .error _ => .isFalse (by intro h; cases h)
  | .error _, .ok _ => .isFalse (by intro h; cases h)
  | .error e, .error f =>
    if h : e = f then .isTrue (by rw [h]) else .isFalse (by intro hh; cases hh; exact h rfl)

/-- Keyword arguments of `sdk.secrets.get_secret_by_name`
(`src/main.py:127-132` and `src/main.py:416-421`). -/
structure FetchArgs where
  secret_name : String
  project_id : String
  environment_slug : String
  secret_path : String
deriving Repr, DecidableEq

/-- Outcome of `LoadEnv.get`: the returned value or error, the cache
afterwards, whether the cache was consulted, and whether (and how) the
remote capability was invoked. -/
structure GetOutcome where
  result : Except LEErr String
  cache : TTLCache
  cacheChecked : Bool
  remoteCalled : Bool
  remoteArgs : Option FetchArgs
  remoteCreds : Option (String × String)
deriving Repr, DecidableEq

/-- `LoadEnv.get` (`src/main.py:76-141`).  `fetch` is the oracle for
`sdk.secrets.get_secret_by_name(...)`, given the call arguments and the
credentials of the SDK instance used; it returns the record's
`secret_value` or the raised failure. -/
def LoadEnv.get (le : LoadEnv) (now : Nat) (key : String)
    (project : Option String) (env : String) (path : String)
    (client_id client_secret : Option String)
    (fetch : FetchArgs → String × String → Except String String) : GetOutcome :=
  match resolveProject project le.project_id with
  | none => ⟨.error .missingProject, le.cache, false, false, none, none⟩
  | some project_id =>
    let cache_key := getCacheKey project_id env path key
    match le.cache.getU now cache_key with
    | some v => ⟨.ok v, le.cache, true, false, none, none⟩
    | none =>
      let creds :=
        if truthyB client_id || truthyB client_secret then
          (optOr client_id le.default_client_id, optOr client_secret le.default_client_secret)
        else
          (le.default_client_id, le.default_client_secret)
      let args : FetchArgs := ⟨key, project_id, env, strOr path le.secret_path⟩
      match fetch args creds with
      | .ok value => ⟨.ok value, le.cache.setItem now cache_key value, true, true, some args, some creds⟩
      | .error e => ⟨.error (.remote e), le.cache, true, true, some args, some creds⟩

/-- A record yielded by `sdk.secrets.list_secrets`; `none` fields model a
record lacking the attribute (`hasattr` checks at `src/main.py:183`). -/
structure ListedSecret where
  secret_key : Option String
  secret_value : Option String
deriving Repr, DecidableEq

/-- Keyword arguments of `sdk.secrets.list_secrets`
(`src/main.py:170-179` and `src/main.py:230-239`). -/
structure ListArgs where
  project_id : String
  environment_slug : String
  secret_path : String
  expand_secret_references : Bool
  view_secret_value : Bool
  recursive : Bool
  include_imports : Bool
  tag_filters : List String
deriving Repr, DecidableEq

/-- Outcome of a cache-less facade operation returning `α`. -/
structure PassOutcome (α : Type) where
  result : Except LEErr α
  cache : TTLCache
  remoteCalled : Bool
  remoteArgs : Option ListArgs
deriving Repr, DecidableEq

/-- Python `dict` assignment `d[k] = v`: update in place or append. -/
def dictInsert (d : List (String × String)) (k v : String) : List (String × String) :=
  if d.any (fun p => p.1 = k) then
    d.map (fun p => if p.1 = k then (k, v) else p)
  else
    d ++ [(k, v)]

/-- The dictionary-building loop of `get_all` (`src/main.py:181-184`):
records with both attributes present are inserted, others skipped. -/
def collectSecrets (records : List ListedSecret) : List (String × String) :=
  records.foldl (fun acc r =>
    match r.secret_key, r.secret_value with
    | some k, some v => dictInsert acc k v
    | _, _ => acc) []

/-- `LoadEnv.get_all` (`src/main.py:143-191`).  Never touches the cache. -/
def LoadEnv.get_all (le : LoadEnv) (project : Option String) (env : String) (path : String)
    (listRemote : ListArgs → Except String (List ListedSecret)) :
    PassOutcome (List (String × String)) :=
  match resolveProject project le.project_id with
  | none => ⟨.error .missingProject, le.cache, false, none⟩
  | some project_id =>
    let args : ListArgs := ⟨project_id, env, strOr path le.secret_path,
      true, true, false, true, []⟩
    match listRemote args with
    | .ok records => ⟨.ok (collectSecrets records), le.cache, true, some args⟩
    | .error e => ⟨.error (.remote e), le.cache, true, some args⟩

/-- `LoadEnv.list_secrets` (`src/main.py:193-246`).  Pure pass-through;
`tag_filters=None` becomes `[]` via `tag_filters or []`. -/
def LoadEnv.list_secrets (le : LoadEnv) (project : Option String) (env : String) (path : String)
    (expand_secret_references view_secret_value recursive include_imports : Bool)
    (tag_filters : Option (List String))
    (listRemote : ListArgs → Except String (List ListedSecret)) :
    PassOutcome (List ListedSecret) :=
  match resolveProject project le.project_id with
  | none => ⟨.error .missingProject, le.cache, false, none⟩
  | some project_id =>
    let args : ListArgs := ⟨project_id, env, strOr path le.secret_path,
      expand_secret_references, view_secret_value, recursive, include_imports,
      match tag_filters with
      | some l => if l = [] then [] else l
      | none => []⟩
    match listRemote args with
    | .ok records => ⟨.ok records, le.cache, true, some args⟩
    | .error e => ⟨.error (.remote e), le.cache, true, some args⟩

/-- Keyword arguments of `sdk.secrets.create_secret_by_name`
(`src/main.py:287-297`). -/
structure CreateArgs where
  secret_name : String
  secret_value : String
  project_id : String
  secret_path : String
  environment_slug : String
  secret_comment : Option String
  skip_multiline_encoding : Bool
  secret_reminder_repeat_days : Option Nat
  secret_reminder_note : Option String
deriving Repr, DecidableEq

/-- Outcome of `create_secret`: the remote descriptor (kept opaque as a
string) or error, the cache afterwards, and the remote invocation data. -/
structure CreateOutcome where
  result : Except LEErr String
  cache : TTLCache
  remoteCalled : Bool
  remoteArgs : Option CreateArgs
deriving Repr, DecidableEq

/-- The dual invalidation loop shared by `create_secret`
(`src/main.py:299-306`) and `update_secret` (`src/main.py:372-379`):
for each of `[path or self.secret_path, ""]`, delete every live cache
entry whose key starts with `self._key(project_id, env, path_to_check)`. -/
def invalidateScope (cache : TTLCache) (now : Nat)
    (project_id env resolved_path : String) : TTLCache :=
  [resolved_path, ""].foldl (fun c pa => c.delMatching now (_key project_id env pa)) cache

/-- `LoadEnv.create_secret` (`src/main.py:248-313`).  `create` is the
oracle for `sdk.secrets.create_secret_by_name`. -/
def LoadEnv.create_secret (le : LoadEnv) (now : Nat)
    (secret_name secret_value : String)
    (project : Option String) (env : String) (path : Option String)
    (secret_comment : Option String) (skip_multiline_encoding : Bool)
    (secret_reminder_repeat_days : Option Nat) (secret_reminder_note : Option String)
    (create : CreateArgs → Except String String) : CreateOutcome :=
  match resolveProject project le.project_id with
  | none => ⟨.error .missingProject, le.cache, false, none⟩
  | some project_id =>
    let args : CreateArgs := ⟨secret_name, secret_value, project_id,
      optOr path le.secret_path, env, secret_comment, skip_multiline_encoding,
      secret_reminder_repeat_days, secret_reminder_note⟩
    match create args with
    | .ok result =>
      ⟨.ok result, invalidateScope le.cache now project_id env (optOr path le.secret_path),
        true, some args⟩
    | .error e => ⟨.error (.remote e), le.cache, true, some args⟩

/-- Keyword arguments of `sdk.secrets.update_secret_by_name`
(`src/main.py:357-370`). -/
structure UpdateArgs where
  current_secret_name : String
  project_id : String
  secret_path : String
  environment_slug : String
  secret_value : Option String
  secret_comment : Option String
  skip_multiline_encoding : Bool
  secret_reminder_repeat_days : Option Nat
  secret_reminder_note : Option String
  new_secret_name : Option String
  secret_metadata : List String
  tags_ids : List String
deriving Repr, DecidableEq

/-- Outcome of `update_secret` (the operation returns `None`). -/
structure UpdateOutcome where
  result : Except LEErr Unit
  cache : TTLCache
  remoteCalled : Bool
  remoteArgs : Option UpdateArgs
deriving Repr, DecidableEq

/-- `LoadEnv.update_secret` (`src/main.py:315-385`).  `update` is the
oracle for `sdk.secrets.update_secret_by_name`. -/
def LoadEnv.update_secret (le : LoadEnv) (now : Nat)
    (current_secret_name : String) (secret_value : Option String)
    (project : Option String) (env : String) (path : Option String)
    (new_secret_name secret_comment : Option String) (skip_multiline_encoding : Bool)
    (secret_reminder_repeat_days : Option Nat) (secret_reminder_note : Option String)
    (secret_metadata tags_ids : Option (List String))
    (update : UpdateArgs → Except String Unit) : UpdateOutcome :=
  match resolveProject project le.project_id with
  | none => ⟨.error .missingProject, le.cache, false, none⟩
  | some project_id =>
    let args : UpdateArgs := ⟨current_secret_name, project_id,
      optOr path le.secret_path, env, secret_value, secret_comment,
      skip_multiline_encoding, secret_reminder_repeat_days, secret_reminder_note,
      new_secret_name,
      (match secret_metadata with
       | some l => if l = [] then [] else l
       | none => []),
      (match tags_ids with
       | some l => if l = [] then [] else l
       | none => [])⟩
    match update args with
    | .ok _ =>
      ⟨.ok (), invalidateScope le.cache now project_id env (optOr path le.secret_path),
        true, some args⟩
    | .error e => ⟨.error (.remote e), le.cache, true, some args⟩

/-- Outcome of `secret_by_name`: the full record (opaque) or error. -/
structure RecordOutcome where
  result : Except LEErr ListedSecret
  cache : TTLCache
  remoteCalled : Bool
  remoteArgs : Option FetchArgs
deriving Repr, DecidableEq

/-- `LoadEnv.secret_by_name` (`src/main.py:387-428`).  Always bypasses the
cache and returns the full record. -/
def LoadEnv.secret_by_name (le : LoadEnv) (secret_name : String)
    (project : Option String) (env : String) (path : Option String)
    (fetch : FetchArgs → Except String ListedSecret) : RecordOutcome :=
  match resolveProject project le.project_id with
  | none => ⟨.error .missingProject, le.cache, false, none⟩
  | some project_id =>
    let args : FetchArgs := ⟨secret_name, project_id, env, optOr path le.secret_path⟩
    match fetch args with
    | .ok record => ⟨.ok record, le.cache, true, some args⟩
    | .error e => ⟨.error (.remote e), le.cache, true, some args⟩

/-- A cache-mutating step performed by the facade: a `put` from a
successful `get`, or a purge pass from the invalidation loop of
`create_secret` / `update_secret`. -/
inductive CacheOp where
  | put (t : Nat) (k v : String) : CacheOp
  | purge (t : Nat) (pre : String) : CacheOp
deriving Repr, DecidableEq

/-- Apply one cache-mutating step. -/
def applyOp (c : TTLCache) : CacheOp → TTLCache
  | .put t k v => c.setItem t k v
  | .purge t pre => c.delMatching t pre

/-- Apply a sequence of cache-mutating steps. -/
def applyOps (c : TTLCache) (ops : List CacheOp) : TTLCache :=
  ops.foldl applyOp c

lemma applyOp_maxsize (c : TTLCache) (op : CacheOp) : (applyOp c op).maxsize = c.maxsize := by
  cases op <;> rfl

lemma setItem_length (c : TTLCache) (now : Nat) (k v : String) (h : 0 < c.maxsize) :
    (c.setItem now k v).entries.length ≤ c.maxsize := by
  unfold TTLCache.setItem
  simp only [List.length_append, List.length_drop, List.length_cons, List.length_nil]
  omega

lemma delMatching_length (c : TTLCache) (now : Nat) (pre : String)
    (h : c.entries.length ≤ c.maxsize) :
    (c.delMatching now pre).entries.length ≤ c.maxsize := by
  unfold TTLCache.delMatching
  exact le_trans (List.length_filter_le _ _) h

lemma applyOp_length (c : TTLCache) (op : CacheOp) (h : 0 < c.maxsize)
    (hl : c.entries.length ≤ c.maxsize) :
    (applyOp c op).entries.length ≤ c.maxsize := by
  cases op with
  | put t k v => exact setItem_length c t k v h
  | purge t pre => exact delMatching_length c t pre hl

lemma applyOps_length (ops : List CacheOp) :
    ∀ c : TTLCache, 0 < c.maxsize → c.entries.length ≤ c.maxsize →
      (applyOps c ops).entries.length ≤ c.maxsize := by
  induction ops with
  | nil => intro c _ hl; exact hl
  | cons op ops ih =>
    intro c h hl
    have hstep := applyOp_length c op h hl
    have hmax := applyOp_maxsize c op
    have := ih (applyOp c op) (by rw [hmax]; exact h) (by rw [hmax]; exact hstep)
    rw [hmax] at this
    exact this

lemma lookupLive_none_of_keys_ne (t : Nat) (k : String) :
    ∀ es : List (String × CacheEntry), (∀ q ∈ es, q.1 ≠ k) → lookupLive t k es = none := by
  intro es
  induction es with
  | nil => intro _; rfl
  | cons a es ih =>
    intro h
    have ha : a.1 ≠ k := h a (by simp)
    simp only [lookupLive, if_neg ha]
    exact ih (fun q hq => h q (by simp [hq]))

lemma lookupLive_append_single (t : Nat) (k : String) (x : String × CacheEntry) :
    ∀ es : List (String × CacheEntry), (∀ q ∈ es, q.1 ≠ k) →
      lookupLive t k (es ++ [x]) =
        if x.1 = k then (if t < x.2.expires then some x.2.value else none) else none := by
  intro es
  induction es with
  | nil => intro _; simp [lookupLive]
  | cons a es ih =>
    intro h
    have ha : a.1 ≠ k := h a (by simp)
    simp only [List.cons_append, lookupLive, if_neg ha]
    exact ih (fun q hq => h q (by simp [hq]))

lemma setItem_entry_keys (c : TTLCache) (now : Nat) (k : String) :
    ∀ q ∈ ((c.entries.filter (fun p => decide (now < p.2.expires))).filter
        (fun p => decide (p.1 ≠ k))).drop
        (((c.entries.filter (fun p => decide (now < p.2.expires))).filter
          (fun p => decide (p.1 ≠ k))).length - (c.maxsize - 1)), q.1 ≠ k := by
  intro q hq
  have hmem := List.drop_subset _ _ hq
  have := (List.mem_filter.mp hmem).2
  simpa using this

lemma getU_setItem_self (c : TTLCache) (now t : Nat) (k v : String) :
    (c.setItem now k v).getU t k = if t < now + c.ttl then some v else none := by
  unfold TTLCache.setItem TTLCache.getU
  simp only []
  rw [lookupLive_append_single t k _ _ (setItem_entry_keys c now k)]
  simp

lemma lookupLive_filterMatch (now : Nat) (pre k : String) :
    ∀ es : List (String × CacheEntry),
      lookupLive now k (es.filter (fun p => !(pyStartsWith p.1 pre && decide (now < p.2.expires)))) =
        if pyStartsWith k pre = true then none else lookupLive now k es := by
  intro es
  induction es with
  | nil => by_cases hm : pyStartsWith k pre = true <;> simp [lookupLive, hm]
  | cons a es ih =>
    by_cases ha : a.1 = k
    · have hpa : pyStartsWith a.1 pre = pyStartsWith k pre := by rw [ha]
      by_cases hm : pyStartsWith k pre = true
      · by_cases hl : now < a.2.expires
        · have hcond : (!(pyStartsWith a.1 pre && decide (now < a.2.expires))) = false := by
            rw [hpa, hm]; simp [hl]
          rw [List.filter_cons]
          simp only [hcond]
          simp only [Bool.false_eq_true, if_false]
          rw [ih]
          simp [hm]
        · have hcond : (!(pyStartsWith a.1 pre && decide (now < a.2.expires))) = true := by
            simp [hl]
          rw [List.filter_cons]
          simp only [hcond, if_true]
          simp [lookupLive, ha, hl, hm]
      · have hm' : pyStartsWith k pre = false := by simpa using hm
        have hcond : (!(pyStartsWith a.1 pre && decide (now < a.2.expires))) = true := by
          rw [hpa, hm']; simp
        rw [List.filter_cons]
        simp only [hcond, if_true]
        by_cases hl : now < a.2.expires
        · simp [lookupLive, ha, hl, hm']
        · simp [lookupLive, ha, hl, hm']
    · by_cases hkeep : (!(pyStartsWith a.1 pre && decide (now < a.2.expires))) = true
      · rw [List.filter_cons]
        simp only [hkeep, if_true]
        simp only [lookupLive, if_neg ha]
        rw [ih]
      · have hkeep' : (!(pyStartsWith a.1 pre && decide (now < a.2.expires))) = false := by
          simpa using hkeep
        rw [List.filter_cons]
        simp only [hkeep']
        simp only [Bool.false_eq_true, if_false]
        rw [ih]
        by_cases hm : pyStartsWith k pre = true
        · simp [hm]
        · simp only [if_neg hm, lookupLive, if_neg ha]

lemma getU_delMatching (c : TTLCache) (now : Nat) (pre k : String) :
    (c.delMatching now pre).getU now k =
      if pyStartsWith k pre = true then none else c.getU now k := by
  unfold TTLCache.delMatching TTLCache.getU
  exact lookupLive_filterMatch now pre k c.entries

lemma mem_delMatching_of_not_match (c : TTLCache) (now : Nat) (pre : String)
    (e : String × CacheEntry) (he : e ∈ c.entries)
    (hm : pyStartsWith e.1 pre = false) :
    e ∈ (c.delMatching now pre).entries := by
  unfold TTLCache.delMatching
  exact List.mem_filter.mpr ⟨he, by simp [hm]⟩

lemma invalidateScope_getU (cache : TTLCache) (now : Nat) (project_id env resolved_path k : String)
    (h : pyStartsWith k (_key project_id env resolved_path) = true ∨
         pyStartsWith k (_key project_id env "") = true) :
    (invalidateScope cache now project_id env resolved_path).getU now k = none := by
  unfold invalidateScope
  simp only [List.foldl_cons, List.foldl_nil]
  rw [getU_delMatching]
  by_cases h2 : pyStartsWith k (_key project_id env "") = true
  · rw [if_pos h2]
  · rw [if_neg h2, getU_delMatching]
    rcases h with h1 | h1
    · rw [if_pos h1]
    · exact absurd h1 h2

lemma invalidateScope_mem (cache : TTLCache) (now : Nat) (project_id env resolved_path : String)
    (e : String × CacheEntry) (he : e ∈ cache.entries)
    (h1 : pyStartsWith e.1 (_key project_id env resolved_path) = false)
    (h2 : pyStartsWith e.1 (_key project_id env "") = false) :
    e ∈ (invalidateScope cache now project_id env resolved_path).entries := by
  unfold invalidateScope
  simp only [List.foldl_cons, List.foldl_nil]
  exact mem_delMatching_of_not_match _ now _ e
    (mem_delMatching_of_not_match cache now _ e he h1) h2

lemma pyStartsWith_key_scope (p env pa n : String) :
    pyStartsWith (getCacheKey p env pa n) (_key p env "") = true := by
  unfold pyStartsWith getCacheKey _key
  rw [List.isPrefixOf_iff_prefix]
  have h : (p ++ ":" ++ env ++ ":" ++ pa ++ ":" ++ n).data
      = (p ++ ":" ++ env ++ ":" ++ "").data ++ (pa ++ ":" ++ n).data := by
    simp
  rw [h]
  exact List.prefix_append _ _

lemma getCacheKey_path_ne (p env d n : String) (hd : 0 < d.length) :
    getCacheKey p env "" n ≠ getCacheKey p env d n := by
  intro h
  have hlen := congrArg String.length h
  simp [getCacheKey, _key, String.length_append] at hlen
  omega

/-- Claim C8: for every cache entry inserted at time T, any cache read at
time ≥ T + ttl treats the entry as absent, even if it was never explicitly
deleted, so a read never returns a value older than ttl. -/
theorem C8_ttl_expiry (c : TTLCache) (T : Nat) (k v : String) (t : Nat)
    (h : T + c.ttl ≤ t) :
    (c.setItem T k v).getU t k = none ∧ (c.setItem T k v).containsKey t k = false := by
  have hg := getU_setItem_self c T t k v
  rw [if_neg (by omega)] at hg
  exact ⟨hg, by simp [TTLCache.containsKey, hg]⟩

theorem C8_ttl_expiry_witness :
    ((⟨100, 3600, []⟩ : TTLCache).setItem 0 "k" "v").getU 3600 "k" = none :=
  (C8_ttl_expiry ⟨100, 3600, []⟩ 0 "k" "v" 3600 (by decide)).1

/-- Claim C7: the facade's cache is constructed with capacity 100, and for
every sequence of cache-mutating operations a cache within capacity stays
within capacity: at most `maxsize` entries remain resident. -/
theorem C7_capacity_bound :
    (∀ a b c d e f g, (mkLoadEnv a b c d e f g).cache.maxsize = 100) ∧
    (∀ (c : TTLCache) (ops : List CacheOp), 0 < c.maxsize →
      c.entries.length ≤ c.maxsize → (applyOps c ops).entries.length ≤ c.maxsize) :=
  ⟨fun _ _ _ _ _ _ _ => rfl, fun c ops h hl => applyOps_length ops c h hl⟩

theorem C7_capacity_bound_witness :
    (applyOps ⟨2, 10, []⟩
      [.put 0 "a" "1", .put 0 "b" "2", .put 0 "c" "3"]).entries.length ≤ 2 :=
  C7_capacity_bound.2 ⟨2, 10, []⟩ [.put 0 "a" "1", .put 0 "b" "2", .put 0 "c" "3"]
    (by decide) (by decide)

/-- Claim C2: whenever the computed cache key is present and unexpired,
`get` returns exactly the cached value, performs no remote invocation, and
leaves the cache unchanged. -/
theorem C2_cache_hit_no_remote (le : LoadEnv) (now : Nat) (key : String)
    (project : Option String) (env path : String) (client_id client_secret : Option String)
    (fetch : FetchArgs → String × String → Except String String) (p v : String)
    (hp : resolveProject project le.project_id = some p)
    (hc : le.cache.getU now (getCacheKey p env path key) = some v) :
    (le.get now key project env path client_id client_secret fetch).result = .ok v ∧
    (le.get now key project env path client_id client_secret fetch).remoteCalled = false ∧
    (le.get now key project env path client_id client_secret fetch).remoteArgs = none ∧
    (le.get now key project env path client_id client_secret fetch).cache = le.cache := by
  refine ⟨?_, ?_, ?_, ?_⟩ <;> simp [LoadEnv.get, hp, hc]

theorem C2_cache_hit_no_remote_witness :
    ((LoadEnv.mk ⟨100, 3600, [("P:dev::K", ⟨"v", 10⟩)]⟩ (some "P") "dev" "/" "" "").get 0 "K"
      none "dev" "" none none (fun _ _ => .error "boom")).result = .ok "v" :=
  (C2_cache_hit_no_remote (LoadEnv.mk ⟨100, 3600, [("P:dev::K", ⟨"v", 10⟩)]⟩ (some "P") "dev" "/" "" "")
    0 "K" none "dev" "" none none (fun _ _ => .error "boom") "P" "v"
    (by decide) (by decide)).1

/-- Claim C4: the cache key concatenates project, environment and path with
the ":" delimiter and appends the secret name; the key for
(test_project, dev, "", TEST_SECRET) is "test_project:dev::TEST_SECRET",
and a get with an unexpired pre-seeded entry at this key returns that value
without calling remote fetch. -/
theorem C4_cache_key_scenario :
    (∀ project env path name : String,
        getCacheKey project env path name =
          project ++ ":" ++ env ++ ":" ++ path ++ ":" ++ name) ∧
    getCacheKey "test_project" "dev" "" "TEST_SECRET" = "test_project:dev::TEST_SECRET" ∧
    ((LoadEnv.mk ⟨100, 3600, [("test_project:dev::TEST_SECRET", ⟨"cached_value", 3600⟩)]⟩
        (some "test_project") "dev" "/" "" "").get 0 "TEST_SECRET" (some "test_project") "dev" ""
        none none (fun _ _ => .error "remote")).result = .ok "cached_value" ∧
    ((LoadEnv.mk ⟨100, 3600, [("test_project:dev::TEST_SECRET", ⟨"cached_value", 3600⟩)]⟩
        (some "test_project") "dev" "/" "" "").get 0 "TEST_SECRET" (some "test_project") "dev" ""
        none none (fun _ _ => .error "remote")).remoteCalled = false :=
  ⟨fun _ _ _ _ => rfl, by decide, by decide, by decide⟩

/-- Claim C3: for every operation, when no project identifier is resolvable
from the per-call override or the instance default, the operation fails with
the missing-scope error before any cache lookup and before any
remote-capability invocation: the outcome is exactly the early-error
outcome with the cache untouched, the cache never consulted, and the remote
capability never invoked. -/
theorem C3_missing_project_fails_closed (le : LoadEnv) (now : Nat)
    (project : Option String) (env path : String)
    (name value : String) (client_id client_secret : Option String)
    (pathOpt : Option String)
    (er vr rc ii : Bool) (tf : Option (List String))
    (cmt : Option String) (sk : Bool) (rd : Option Nat) (rn : Option String)
    (sv nn : Option String) (md tg : Option (List String))
    (fetch : FetchArgs → String × String → Except String String)
    (listRemote : ListArgs → Except String (List ListedSecret))
    (create : CreateArgs → Except String String)
    (update : UpdateArgs → Except String Unit)
    (fetchRec : FetchArgs → Except String ListedSecret)
    (hp : resolveProject project le.project_id = none) :
    (le.get now name project env path client_id client_secret fetch =
        ⟨.error .missingProject, le.cache, false, false, none, none⟩) ∧
    (le.get_all project env path listRemote =
        ⟨.error .missingProject, le.cache, false, none⟩) ∧
    (le.list_secrets project env path er vr rc ii tf listRemote =
        ⟨.error .missingProject, le.cache, false, none⟩) ∧
    (le.create_secret now name value project env pathOpt cmt sk rd rn create =
        ⟨.error .missingProject, le.cache, false, none⟩) ∧
    (le.update_secret now name sv project env pathOpt nn cmt sk rd rn md tg update =
        ⟨.error .missingProject, le.cache, false, none⟩) ∧
    (le.secret_by_name name project env pathOpt fetchRec =
        ⟨.error .missingProject, le.cache, false, none⟩) := by
  refine ⟨?_, ?_, ?_, ?_, ?_, ?_⟩ <;>
    simp [LoadEnv.get, LoadEnv.get_all, LoadEnv.list_secrets, LoadEnv.create_secret,
      LoadEnv.update_secret, LoadEnv.secret_by_name, hp]

theorem C3_missing_project_fails_closed_witness :
    (LoadEnv.mk ⟨100, 3600, []⟩ none "dev" "/" "" "").get 0 "NAME" none "dev" ""
        none none (fun _ _ => .ok "v") =
      ⟨.error .missingProject, ⟨100, 3600, []⟩, false, false, none, none⟩ :=
  (C3_missing_project_fails_closed (LoadEnv.mk ⟨100, 3600, []⟩ none "dev" "/" "" "")
    0 none "dev" "" "NAME" "v" none none none true true false true none none false none none
    none none none none (fun _ _ => .ok "v") (fun _ => .ok []) (fun _ => .ok "r")
    (fun _ => .ok ()) (fun _ => .ok ⟨none, none⟩) (by decide)).1

/-- Claim C5: for every operation, when the remote-capability call fails the
underlying error is propagated unchanged to the caller, and the cache after
the failed operation equals the cache before it. -/
theorem C5_remote_failure_propagates (le : LoadEnv) (now : Nat)
    (project : Option String) (env path : String)
    (name value : String) (client_id client_secret : Option String)
    (pathOpt : Option String)
    (er vr rc ii : Bool) (tf : Option (List String))
    (cmt : Option String) (sk : Bool) (rd : Option Nat) (rn : Option String)
    (sv nn : Option String) (md tg : Option (List String))
    (e p : String)
    (fetch : FetchArgs → String × String → Except String String)
    (listRemote : ListArgs → Except String (List ListedSecret))
    (create : CreateArgs → Except String String)
    (update : UpdateArgs → Except String Unit)
    (fetchRec : FetchArgs → Except String ListedSecret)
    (hp : resolveProject project le.project_id = some p)
    (hmiss : le.cache.getU now (getCacheKey p env path name) = none)
    (hfetch : ∀ a c, fetch a c = .error e)
    (hlist : ∀ a, listRemote a = .error e)
    (hcreate : ∀ a, create a = .error e)
    (hupdate : ∀ a, update a = .error e)
    (hrec : ∀ a, fetchRec a = .error e) :
    ((le.get now name project env path client_id client_secret fetch).result =
        .error (.remote e) ∧
     (le.get now name project env path client_id client_secret fetch).cache = le.cache) ∧
    ((le.get_all project env path listRemote).result = .error (.remote e) ∧
     (le.get_all project env path listRemote).cache = le.cache) ∧
    ((le.list_secrets project env path er vr rc ii tf listRemote).result = .error (.remote e) ∧
     (le.list_secrets project env path er vr rc ii tf listRemote).cache = le.cache) ∧
    ((le.create_secret now name value project env pathOpt cmt sk rd rn create).result =
        .error (.remote e) ∧
     (le.create_secret now name value project env pathOpt cmt sk rd rn create).cache = le.cache) ∧
    ((le.update_secret now name sv project env pathOpt nn cmt sk rd rn md tg update).result =
        .error (.remote e) ∧
     (le.update_secret now name sv project env pathOpt nn cmt sk rd rn md tg update).cache =
        le.cache) ∧
    ((le.secret_by_name name project env pathOpt fetchRec).result = .error (.remote e) ∧
     (le.secret_by_name name project env pathOpt fetchRec).cache = le.cache) := by
  refine ⟨⟨?_, ?_⟩, ⟨?_, ?_⟩, ⟨?_, ?_⟩, ⟨?_, ?_⟩, ⟨?_, ?_⟩, ⟨?_, ?_⟩⟩ <;>
    simp [LoadEnv.get, LoadEnv.get_all, LoadEnv.list_secrets, LoadEnv.create_secret,
      LoadEnv.update_secret, LoadEnv.secret_by_name, hp, hmiss, hfetch, hlist,
      hcreate, hupdate, hrec]

theorem C5_remote_failure_propagates_witness :
    ((LoadEnv.mk ⟨100, 3600, [("P:dev:/:X", ⟨"v", 9⟩)]⟩ (some "P") "dev" "/" "" "").create_secret
        0 "NEW" "v2" none "dev" none none false none none (fun _ => .error "boom")).result =
      .error (.remote "boom") ∧
    ((LoadEnv.mk ⟨100, 3600, [("P:dev:/:X", ⟨"v", 9⟩)]⟩ (some "P") "dev" "/" "" "").create_secret
        0 "NEW" "v2" none "dev" none none false none none (fun _ => .error "boom")).cache =
      ⟨100, 3600, [("P:dev:/:X", ⟨"v", 9⟩)]⟩ :=
  (C5_remote_failure_propagates
    (LoadEnv.mk ⟨100, 3600, [("P:dev:/:X", ⟨"v", 9⟩)]⟩ (some "P") "dev" "/" "" "")
    0 none "dev" "" "NEW" "v2" none none none true true false true none none false none none
    none none none none "boom" "P"
    (fun _ _ => .error "boom") (fun _ => .error "boom") (fun _ => .error "boom")
    (fun _ => .error "boom") (fun _ => .error "boom")
    (by decide) (by decide) (fun _ _ => rfl) (fun _ => rfl) (fun _ => rfl)
    (fun _ => rfl) (fun _ => rfl)).2.2.2.1

/-- Claim C1 is refuted on the code: after a successful create_secret for
scope (P, dev, "/"), the live cache entry "P:dev:other:NAME" — which
belongs to the different path "other" of the same project and environment
and does not begin with the resolved-path scope "P:dev:/" — is purged,
contradicting the claim that entries for other paths within the same
project and environment are untouched. -/
theorem C1_counterexample :
    ((LoadEnv.mk ⟨100, 3600, [("P:dev:other:NAME", ⟨"v", 100⟩)]⟩ (some "P") "dev" "/" "" "").create_secret
        0 "NEW" "v2" none "dev" none none false none none (fun _ => .ok "r")).result = .ok "r" ∧
    (TTLCache.mk 100 3600 [("P:dev:other:NAME", ⟨"v", 100⟩)]).containsKey 0 "P:dev:other:NAME" = true ∧
    pyStartsWith "P:dev:other:NAME" (_key "P" "dev" (optOr none "/")) = false ∧
    ("other" : String) ≠ "/" ∧
    ((LoadEnv.mk ⟨100, 3600, [("P:dev:other:NAME", ⟨"v", 100⟩)]⟩ (some "P") "dev" "/" "" "").create_secret
        0 "NEW" "v2" none "dev" none none false none none (fun _ => .ok "r")).cache.containsKey
        0 "P:dev:other:NAME" = false := by
  decide

/-- Claim C1 (amended): after a successful create_secret or update_secret
for scope (P, E, path), no live cache entry whose key begins with
scope(P, E, path-or-default-path) or with scope(P, E, "") remains; since
scope(P, E, "") is a prefix of every cache key of project P and
environment E, every cached secret of that project and environment is
purged, whatever its path; and every physical cache entry whose key begins
with neither prefix — in particular every entry of another project or
another environment — is unchanged. -/
theorem C1_dual_invalidation (le : LoadEnv) (now : Nat)
    (name value cname : String) (project : Option String) (env : String) (path : Option String)
    (cmt : Option String) (sk : Bool) (rd : Option Nat) (rn : Option String)
    (sv nn : Option String) (md tg : Option (List String))
    (r p : String)
    (create : CreateArgs → Except String String)
    (update : UpdateArgs → Except String Unit)
    (hp : resolveProject project le.project_id = some p)
    (hcreate : ∀ a, create a = .ok r)
    (hupdate : ∀ a, update a = .ok ()) :
    (∀ k, (pyStartsWith k (_key p env (optOr path le.secret_path)) = true ∨
           pyStartsWith k (_key p env "") = true) →
       (le.create_secret now name value project env path cmt sk rd rn create).cache.getU now k
          = none ∧
       (le.update_secret now cname sv project env path nn cmt sk rd rn md tg update).cache.getU
          now k = none) ∧
    (∀ pa n,
       (le.create_secret now name value project env path cmt sk rd rn create).cache.getU now
          (getCacheKey p env pa n) = none ∧
       (le.update_secret now cname sv project env path nn cmt sk rd rn md tg update).cache.getU
          now (getCacheKey p env pa n) = none) ∧
    (∀ q ∈ le.cache.entries,
       pyStartsWith q.1 (_key p env (optOr path le.secret_path)) = false →
       pyStartsWith q.1 (_key p env "") = false →
       q ∈ (le.create_secret now name value project env path cmt sk rd rn create).cache.entries ∧
       q ∈ (le.update_secret now cname sv project env path nn cmt sk rd rn md tg
              update).cache.entries) := by
  have hcc : (le.create_secret now name value project env path cmt sk rd rn create).cache =
      invalidateScope le.cache now p env (optOr path le.secret_path) := by
    simp [LoadEnv.create_secret, hp, hcreate]
  have huc : (le.update_secret now cname sv project env path nn cmt sk rd rn md tg update).cache =
      invalidateScope le.cache now p env (optOr path le.secret_path) := by
    simp [LoadEnv.update_secret, hp, hupdate]
  refine ⟨fun k hk => ⟨?_, ?_⟩, fun pa n => ⟨?_, ?_⟩, fun q hq h1 h2 => ⟨?_, ?_⟩⟩
  · rw [hcc]; exact invalidateScope_getU _ _ _ _ _ _ hk
  · rw [huc]; exact invalidateScope_getU _ _ _ _ _ _ hk
  · rw [hcc]; exact invalidateScope_getU _ _ _ _ _ _ (Or.inr (pyStartsWith_key_scope p env pa n))
  · rw [huc]; exact invalidateScope_getU _ _ _ _ _ _ (Or.inr (pyStartsWith_key_scope p env pa n))
  · rw [hcc]; exact invalidateScope_mem _ _ _ _ _ q hq h1 h2
  · rw [huc]; exact invalidateScope_mem _ _ _ _ _ q hq h1 h2

theorem C1_dual_invalidation_witness :
    ((LoadEnv.mk ⟨100, 3600, [("P:dev:x:N", ⟨"v", 50⟩)]⟩ (some "P") "dev" "/" "" "").create_secret
      0 "NEW" "v2" none "dev" none none false none none (fun _ => .ok "r")).cache.getU 0 "P:dev:x:N"
      = none :=
  ((C1_dual_invalidation (LoadEnv.mk ⟨100, 3600, [("P:dev:x:N", ⟨"v", 50⟩)]⟩ (some "P") "dev" "/" "" "")
      0 "NEW" "v2" "CUR" none "dev" none none false none none none none none none "r" "P"
      (fun _ => .ok "r") (fun _ => .ok ()) (by decide) (fun _ => rfl) (fun _ => rfl)).1
    "P:dev:x:N" (Or.inr (by decide))).1

/-- Claim C6 is refuted on the code: a facade whose instance default
environment (environment_slug, from INFISICAL_ENVIRONMENT) is "prod",
invoked without an environment override, issues the remote call and keys
the cache with the literal parameter default "dev", not with the instance
default environment. -/
theorem C6_counterexample :
    (LoadEnv.mk ⟨100, 3600, []⟩ (some "P") "prod" "/" "" "").environment_slug = "prod" ∧
    ((LoadEnv.mk ⟨100, 3600, []⟩ (some "P") "prod" "/" "" "").get 0 "NAME" none defaultEnvArg ""
        none none (fun _ _ => .ok "val")).remoteArgs = some ⟨"NAME", "P", "dev", "/"⟩ ∧
    ((LoadEnv.mk ⟨100, 3600, []⟩ (some "P") "prod" "/" "" "").get 0 "NAME" none defaultEnvArg ""
        none none (fun _ _ => .ok "val")).cache.containsKey 0 (getCacheKey "P" "dev" "" "NAME")
        = true ∧
    ((LoadEnv.mk ⟨100, 3600, []⟩ (some "P") "prod" "/" "" "").get 0 "NAME" none defaultEnvArg ""
        none none (fun _ _ => .ok "val")).cache.containsKey 0 (getCacheKey "P" "prod" "" "NAME")
        = false ∧
    ("dev" : String) ≠ "prod" := by
  decide

/-- Claim C6 (amended): for every operation invoked without an environment
override (get, get_all, list_secrets, create_secret, update_secret,
secret_by_name), the effective environment used for the cache key and the
remote call is the literal parameter default "dev", regardless of the
instance environment_slug resolved at construction; the default project
and the default path, by contrast, are the instance defaults (project_id
and secret_path). -/
theorem C6_default_env_is_literal (le : LoadEnv) (now : Nat)
    (name value cname : String) (pathOpt : Option String)
    (er vr rc ii : Bool)
    (cmt : Option String) (sk : Bool) (rd : Option Nat) (rn : Option String)
    (sv nn : Option String)
    (fetch : FetchArgs → String × String → Except String String)
    (listRemote : ListArgs → Except String (List ListedSecret))
    (create : CreateArgs → Except String String)
    (update : UpdateArgs → Except String Unit)
    (fetchRec : FetchArgs → Except String ListedSecret)
    (p v : String)
    (hp : resolveProject none le.project_id = some p)
    (hmiss : le.cache.getU now (getCacheKey p defaultEnvArg "" name) = none)
    (hf : ∀ a c, fetch a c = .ok v) :
    (le.get now name none defaultEnvArg "" none none fetch).remoteArgs =
      some ⟨name, p, "dev", le.secret_path⟩ ∧
    (le.get now name none defaultEnvArg "" none none fetch).cache =
      le.cache.setItem now (getCacheKey p "dev" "" name) v ∧
    (le.get_all none defaultEnvArg "" listRemote).remoteArgs =
      some ⟨p, "dev", le.secret_path, true, true, false, true, []⟩ ∧
    (le.list_secrets none defaultEnvArg "" er vr rc ii none listRemote).remoteArgs =
      some ⟨p, "dev", le.secret_path, er, vr, rc, ii, []⟩ ∧
    (le.create_secret now name value none defaultEnvArg pathOpt cmt sk rd rn create).remoteArgs =
      some ⟨name, value, p, optOr pathOpt le.secret_path, "dev", cmt, sk, rd, rn⟩ ∧
    (le.update_secret now cname sv none defaultEnvArg pathOpt nn cmt sk rd rn none none
        update).remoteArgs =
      some ⟨cname, p, optOr pathOpt le.secret_path, "dev", sv, cmt, sk, rd, rn, nn, [], []⟩ ∧
    (le.secret_by_name name none defaultEnvArg pathOpt fetchRec).remoteArgs =
      some ⟨name, p, "dev", optOr pathOpt le.secret_path⟩ := by
  simp only [defaultEnvArg] at hmiss
  refine ⟨?_, ?_, ?_, ?_, ?_, ?_, ?_⟩
  · simp [LoadEnv.get, defaultEnvArg, hp, hmiss, hf, strOr]
  · simp [LoadEnv.get, defaultEnvArg, hp, hmiss, hf, strOr]
  · simp only [LoadEnv.get_all, hp]
    split <;> simp [defaultEnvArg, strOr]
  · simp only [LoadEnv.list_secrets, hp]
    split <;> simp [defaultEnvArg, strOr]
  · simp only [LoadEnv.create_secret, hp]
    split <;> simp [defaultEnvArg]
  · simp only [LoadEnv.update_secret, hp]
    split <;> simp [defaultEnvArg]
  · simp only [LoadEnv.secret_by_name, hp]
    split <;> simp [defaultEnvArg]

theorem C6_default_env_is_literal_witness :
    ((LoadEnv.mk ⟨100, 3600, []⟩ (some "P") "prod" "/" "" "").get 0 "NAME" none defaultEnvArg ""
        none none (fun _ _ => .ok "v")).remoteArgs = some ⟨"NAME", "P", "dev", "/"⟩ ∧
    ((LoadEnv.mk ⟨100, 3600, []⟩ (some "P") "prod" "/" "" "").list_secrets none defaultEnvArg ""
        true true false true none (fun _ => .ok [])).remoteArgs =
      some ⟨"P", "dev", "/", true, true, false, true, []⟩ :=
  ⟨(C6_default_env_is_literal (LoadEnv.mk ⟨100, 3600, []⟩ (some "P") "prod" "/" "" "")
      0 "NAME" "VAL" "CUR" none true true false true none false none none none none
      (fun _ _ => .ok "v") (fun _ => .ok []) (fun _ => .ok "r") (fun _ => .ok ())
      (fun _ => .ok ⟨none, none⟩) "P" "v" (by decide) (by decide) (fun _ _ => rfl)).1,
   (C6_default_env_is_literal (LoadEnv.mk ⟨100, 3600, []⟩ (some "P") "prod" "/" "" "")
      0 "NAME" "VAL" "CUR" none true true false true none false none none none none
      (fun _ _ => .ok "v") (fun _ => .ok []) (fun _ => .ok "r") (fun _ => .ok ())
      (fun _ => .ok ⟨none, none⟩) "P" "v" (by decide) (by decide)
      (fun _ _ => rfl)).2.2.2.1⟩

/-- Claim C9: per-call credential overrides do not enter the cache key: a
get with override credentials stores its fetched value under the same
scope-and-name key, and a subsequent get with any (or no) credential
override on the same scope and name returns the cached value without any
remote call. -/
theorem C9_creds_not_in_cache_key (le : LoadEnv) (now now2 : Nat) (name : String)
    (project : Option String) (env path : String)
    (cid cs cid2 cs2 : Option String)
    (fetch fetch2 : FetchArgs → String × String → Except String String)
    (p v : String)
    (hp : resolveProject project le.project_id = some p)
    (hmiss : le.cache.getU now (getCacheKey p env path name) = none)
    (hok : ∀ a c, fetch a c = .ok v)
    (ht : now2 < now + le.cache.ttl) :
    (le.get now name project env path cid cs fetch).cache =
      le.cache.setItem now (getCacheKey p env path name) v ∧
    (le.get now name project env path cid cs fetch).cache.getU now2
      (getCacheKey p env path name) = some v ∧
    ({ le with cache := (le.get now name project env path cid cs fetch).cache }.get now2 name
        project env path cid2 cs2 fetch2).result = .ok v ∧
    ({ le with cache := (le.get now name project env path cid cs fetch).cache }.get now2 name
        project env path cid2 cs2 fetch2).remoteCalled = false := by
  have h1 : (le.get now name project env path cid cs fetch).cache =
      le.cache.setItem now (getCacheKey p env path name) v := by
    simp [LoadEnv.get, hp, hmiss, hok]
  have h2 : (le.cache.setItem now (getCacheKey p env path name) v).getU now2
      (getCacheKey p env path name) = some v := by
    rw [getU_setItem_self, if_pos ht]
  refine ⟨h1, by rw [h1]; exact h2, ?_, ?_⟩ <;>
    (rw [h1]; simp [LoadEnv.get, hp, h2])

theorem C9_creds_not_in_cache_key_witness :
    ({ (LoadEnv.mk ⟨100, 3600, []⟩ (some "P") "dev" "/" "id" "sec") with
        cache := ((LoadEnv.mk ⟨100, 3600, []⟩ (some "P") "dev" "/" "id" "sec").get 0 "N"
          none "dev" "" (some "oid") (some "osec") (fun _ _ => .ok "v")).cache }.get 1 "N"
        none "dev" "" none none (fun _ _ => .error "x")).result = .ok "v" :=
  (C9_creds_not_in_cache_key (LoadEnv.mk ⟨100, 3600, []⟩ (some "P") "dev" "/" "id" "sec")
    0 1 "N" none "dev" "" (some "oid") (some "osec") none none
    (fun _ _ => .ok "v") (fun _ _ => .error "x") "P" "v"
    (by decide) (by decide) (fun _ _ => rfl) (by decide)).2.2.1

/-- Claim C10: a get with an empty path argument and a non-empty instance
default secret path issues the remote fetch with the default path, but
caches the returned value under the key computed from the empty path, not
under the key containing the default path. -/
theorem C10_empty_path_key (le : LoadEnv) (now : Nat) (name : String)
    (project : Option String) (env : String) (cid cs : Option String)
    (fetch : FetchArgs → String × String → Except String String) (p v : String)
    (hp : resolveProject project le.project_id = some p)
    (hd : 0 < le.secret_path.length)
    (httl : 0 < le.cache.ttl)
    (hmiss : le.cache.getU now (getCacheKey p env "" name) = none)
    (hnod : ∀ q ∈ le.cache.entries, q.1 ≠ getCacheKey p env le.secret_path name)
    (hok : ∀ a c, fetch a c = .ok v) :
    (le.get now name project env "" cid cs fetch).remoteArgs =
      some ⟨name, p, env, le.secret_path⟩ ∧
    (le.get now name project env "" cid cs fetch).cache.getU now
      (getCacheKey p env "" name) = some v ∧
    (le.get now name project env "" cid cs fetch).cache.getU now
      (getCacheKey p env le.secret_path name) = none := by
  have hcache : (le.get now name project env "" cid cs fetch).cache =
      le.cache.setItem now (getCacheKey p env "" name) v := by
    simp [LoadEnv.get, hp, hmiss, hok]
  have hargs : (le.get now name project env "" cid cs fetch).remoteArgs =
      some ⟨name, p, env, strOr "" le.secret_path⟩ := by
    simp [LoadEnv.get, hp, hmiss, hok]
  refine ⟨by rw [hargs]; simp [strOr], ?_, ?_⟩
  · rw [hcache, getU_setItem_self, if_pos (by omega)]
  · rw [hcache]
    unfold TTLCache.setItem TTLCache.getU
    apply lookupLive_none_of_keys_ne
    intro q hq
    rcases List.mem_append.mp hq with hq1 | hq2
    · have hmem : q ∈ le.cache.entries := by
        have ha := List.drop_subset _ _ hq1
        have hb := (List.mem_filter.mp ha).1
        exact (List.mem_filter.mp hb).1
      exact hnod q hmem
    · have : q = (getCacheKey p env "" name, ⟨v, now + le.cache.ttl⟩) := by simpa using hq2
      rw [this]
      exact getCacheKey_path_ne p env le.secret_path name hd

theorem C10_empty_path_key_witness :
    ((LoadEnv.mk ⟨100, 3600, []⟩ (some "P") "dev" "/" "" "").get 0 "N" none "dev" "" none none
        (fun _ _ => .ok "v")).remoteArgs = some ⟨"N", "P", "dev", "/"⟩ ∧
    ((LoadEnv.mk ⟨100, 3600, []⟩ (some "P") "dev" "/" "" "").get 0 "N" none "dev" "" none none
        (fun _ _ => .ok "v")).cache.getU 0 (getCacheKey "P" "dev" "/" "N") = none :=
  ⟨(C10_empty_path_key (LoadEnv.mk ⟨100, 3600, []⟩ (some "P") "dev" "/" "" "") 0 "N" none "dev"
      none none (fun _ _ => .ok "v") "P" "v" (by decide) (by decide) (by decide) (by decide)
      (by intro q hq; simp at hq) (fun _ _ => rfl)).1,
   (C10_empty_path_key (LoadEnv.mk ⟨100, 3600, []⟩ (some "P") "dev" "/" "" "") 0 "N" none "dev"
      none none (fun _ _ => .ok "v") "P" "v" (by decide) (by decide) (by decide) (by decide)
      (by intro q hq; simp at hq) (fun _ _ => rfl)).2.2⟩

end Infisical
